import Mathlib

/-!
Shallow embedding of the AI-Storyboard-Generator pipeline (`app.py`) and
verification of its specified properties.

Modelling conventions, chosen once and used throughout:

  * Python dicts keyed by scene number become functions `Nat → Option String`;
    `d[k] = v` becomes a pointwise functional update and `d.get(k)` becomes
    application.
  * Every external effect is abstracted by an explicit environment record that
    fixes the outcome the external world would produce: the HTTP status and
    decode/save outcomes for the image service, the raise/exists outcomes for
    the TTS call, the on-disk existence of files (`os.path.exists`) as a
    predicate `String → Bool`, the loadability and duration of an audio file
    (`AudioFileClip`) as `String → Option ℚ`, and the export outcome of
    `write_videofile`.  A Python `try`/`except` around such a call becomes a
    case split on the environment.
  * JSON parsing of the LLM response (including markdown-fence stripping) is
    abstracted at the parsed level: the environment supplies
    `Option StoryData`, `none` meaning the `except` path of
    `generate_consistent_story` was taken.
  * File paths are strings; `os.path.abspath p` is modelled as `cwd ++ "/" ++ p`
    for an abstract current working directory `cwd`.
  * Python string operations: `s.lower()` is a character-wise map (`pyLower`),
    `a in b` is list-infix of the character data (`pyIn`), and truthiness of a
    string is the test against `""`.
  * Durations from MoviePy are rationals.  Every MoviePy operation the
    program guards with a `try`/`except` keeps an explicit failure outcome in
    the environment: `AudioFileClip` (loadability and duration), the scene
    `ImageClip` (whose raise makes the per-scene `except` drop the clip), the
    title/end `ImageClip`, `set_audio` (whose raise leaves the clip without
    audio but with the already-computed duration), and the export.  Only
    `set_duration` and `concatenate_videoclips`, pure data manipulations the
    source shares `except` handlers with, are treated as total.
-/

/-! ## Asset registry (`StoryboardFiles`, app.py lines 38-74) -/

/-- The global file tracker: two scene-number-indexed maps plus the two card
slots, modelling the Python class `StoryboardFiles`. -/
structure StoryboardFiles where
  images : Nat → Option String
  audio : Nat → Option String
  title_card : Option String
  end_card : Option String

/-- Method `reset` replaces both maps by empty dicts and clears the card slots
(lines 43-47).  It ignores the previous state entirely. -/
def StoryboardFiles.reset (_f : StoryboardFiles) : StoryboardFiles :=
  { images := fun _ => none, audio := fun _ => none, title_card := none, end_card := none }

/-- The state produced by `__init__`, which just calls `reset` (lines 40-41). -/
def StoryboardFiles.init : StoryboardFiles :=
  { images := fun _ => none, audio := fun _ => none, title_card := none, end_card := none }

/-- Method `add_image`: `self.images[scene_number] = path` (lines 49-51). -/
def StoryboardFiles.add_image (f : StoryboardFiles) (scene_number : Nat) (path : String) :
    StoryboardFiles :=
  { f with images := fun m => if m = scene_number then some path else f.images m }

/-- Method `add_audio`: `self.audio[scene_number] = path` (lines 53-55). -/
def StoryboardFiles.add_audio (f : StoryboardFiles) (scene_number : Nat) (path : String) :
    StoryboardFiles :=
  { f with audio := fun m => if m = scene_number then some path else f.audio m }

/-- Method `get_image`: `self.images.get(scene_number)` (lines 57-58). -/
def StoryboardFiles.get_image (f : StoryboardFiles) (scene_number : Nat) : Option String :=
  f.images scene_number

/-- Method `get_audio`: `self.audio.get(scene_number)` (lines 60-61). -/
def StoryboardFiles.get_audio (f : StoryboardFiles) (scene_number : Nat) : Option String :=
  f.audio scene_number

/-! ## Story data model (the JSON schema of app.py lines 102-122) -/

/-- The `visual_bible` object; every field may be missing from the parsed
JSON, hence `Option`. -/
structure VisualBible where
  art_style : Option String
  color_palette : Option String
  main_character : Option String
  secondary_characters : Option String
  world_setting : Option String
deriving DecidableEq

/-- The empty dict used as default in `story_data.get("visual_bible", {})`. -/
def VisualBible.empty : VisualBible :=
  { art_style := none, color_palette := none, main_character := none,
    secondary_characters := none, world_setting := none }

/-- One scene of the parsed story document.  `scene_number` comes straight
from the generation service and is an arbitrary optional integer;
`style_reference` is absent until `enhance_visual_prompts` sets it. -/
structure Scene where
  scene_number : Option Int
  description : Option String
  visual_prompt : Option String
  narration : Option String
  camera_angle : Option String
  mood : Option String
  style_reference : Option String
deriving DecidableEq

/-- The parsed story document (`story_data`).  A missing `scenes` key stays
missing: `enhance_visual_prompts` iterates `story_data.get("scenes", [])` but
never inserts the key. -/
structure StoryData where
  title : Option String
  visual_bible : Option VisualBible
  scenes : Option (List Scene)
deriving DecidableEq

/-- Python truthiness of the parsed story dict: a dict is falsy exactly
when it is empty, i.e. when none of its keys are present.  Used by the
orchestrator's `if not story_data:` test (line 572), which is taken both
for `None` and for a falsy parsed document such as `{}`. -/
def StoryData.truthy (sd : StoryData) : Bool :=
  sd.title.isSome || sd.visual_bible.isSome || sd.scenes.isSome

/-! ## Python string primitives -/

/-- Python `s.lower()`, modelled as the character-wise lowering map. -/
def pyLower (s : String) : String :=
  String.mk (s.data.map Char.toLower)

/-- Python `needle in hay` on strings: substring containment, i.e. list
infix on the character data. -/
def pyIn (needle hay : String) : Prop :=
  needle.data <:+: hay.data

instance pyIn.instDecidable (a b : String) : Decidable (pyIn a b) :=
  inferInstanceAs (Decidable (a.data <:+: b.data))

/-- String `s` ends with `t`: list suffix on the character data. -/
def pyEndsWith (s t : String) : Prop :=
  t.data <:+ s.data

instance pyEndsWith.instDecidable (s t : String) : Decidable (pyEndsWith s t) :=
  inferInstanceAs (Decidable (t.data <:+ s.data))

/-- Model of `os.path.abspath` for a relative path, for an abstract working
directory `cwd`. -/
def abspath (cwd p : String) : String :=
  cwd ++ "/" ++ p

/-- A POSIX-absolute path: its first character is the separator. -/
def isAbsolutePath (p : String) : Prop :=
  p.data.head? = some '/'

instance isAbsolutePath.instDecidable (p : String) : Decidable (isAbsolutePath p) :=
  inferInstanceAs (Decidable (p.data.head? = some '/'))

/-! ## Story compiler (app.py lines 92-184) -/

/-- The consistency-enhancement pass applied to one scene (body of the loop
in lines 173-182): prepend `main_character` when it is non-empty and not
already a case-insensitive substring of the prompt, then append the
consistency suffix and record the style reference. -/
def enhanceScene (main_character consistencyPart : String) (scene : Scene) : Scene :=
  let original_prompt := scene.visual_prompt.getD ""
  let enhanced_prompt :=
    if main_character ≠ "" ∧ ¬ pyIn (pyLower main_character) (pyLower original_prompt) then
      main_character ++ ", " ++ original_prompt
    else
      original_prompt
  { scene with
      visual_prompt :=
        some (enhanced_prompt ++ ", " ++ consistencyPart ++ ", consistent character design"),
      style_reference := some consistencyPart }

/-- Function `enhance_visual_prompts` (lines 162-184): read the visual bible with the
source's defaults and rewrite every scene. -/
def enhance_visual_prompts (story_data : StoryData) : StoryData :=
  let visual_bible := story_data.visual_bible.getD VisualBible.empty
  let art_style := visual_bible.art_style.getD "digital art, cinematic"
  let color_palette := visual_bible.color_palette.getD "vibrant colors"
  let main_character := visual_bible.main_character.getD ""
  let consistencyPart := art_style ++ ", " ++ color_palette
  { story_data with
      scenes := story_data.scenes.map (List.map (enhanceScene main_character consistencyPart)) }

/-- Function `generate_consistent_story` (lines 92-159).  The LLM call, fence
stripping and `json.loads` are abstracted into the already-parsed argument:
`none` is the `except` path (malformed response), `some d` a successful
parse, which is then enhanced. -/
def generate_consistent_story (parsed : Option StoryData) : Option StoryData :=
  match parsed with
  | none => none
  | some story_data => some (enhance_visual_prompts story_data)

/-! ## Image synthesizer (app.py lines 191-281) -/

/-- Hexadecimal digit (uppercase, as `urllib.parse.quote` produces). -/
def toHexDigit (n : Nat) : Char :=
  if n < 10 then Char.ofNat (48 + n) else Char.ofNat (55 + n)

/-- Percent-encoding of one byte. -/
def percentEncodeByte (b : Nat) : List Char :=
  ['%', toHexDigit (b / 16), toHexDigit (b % 16)]

/-- UTF-8 bytes of one character. -/
def utf8Bytes (c : Char) : List Nat :=
  let n := c.toNat
  if n < 128 then [n]
  else if n < 2048 then [192 + n / 64, 128 + n % 64]
  else if n < 65536 then [224 + n / 4096, 128 + (n / 64) % 64, 128 + n % 64]
  else [240 + n / 262144, 128 + (n / 4096) % 64, 128 + (n / 64) % 64, 128 + n % 64]

/-- Characters `urllib.parse.quote` leaves unencoded with the default
`safe='/'`: ASCII alphanumerics, `_ . - ~` and `/`. -/
def quoteSafe (c : Char) : Bool :=
  c.isAlpha || c.isDigit || c == '_' || c == '.' || c == '-' || c == '~' || c == '/'

/-- Model of `urllib.parse.quote` with default safe characters. -/
def pyQuote (s : String) : String :=
  String.mk (s.data.flatMap fun c =>
    if quoteSafe c then [c] else (utf8Bytes c).flatMap percentEncodeByte)

/-- Python truthiness of the `seed` argument (`if seed:`): `None` and `0`
are falsy. -/
def seedTruthy (seed : Option Nat) : Bool :=
  match seed with
  | none => false
  | some n => n != 0

/-- The request URL of lines 198-201: the seeded f-string when `seed` is
truthy, the unseeded one otherwise. -/
def imageURL (encoded_prompt : String) (seed : Option Nat) : String :=
  if seedTruthy seed then
    "https://image.pollinations.ai/prompt/" ++ encoded_prompt ++
      "?width=1024&height=576&seed=" ++ toString (seed.getD 0) ++ "&nologo=true"
  else
    "https://image.pollinations.ai/prompt/" ++ encoded_prompt ++
      "?width=1024&height=576&nologo=true"

/-- The query parameters carried by `imageURL`, as key/value pairs: the
`seed` parameter is included exactly on the truthy branch. -/
def imageQuery (seed : Option Nat) : List (String × String) :=
  if seedTruthy seed then
    [("width", "1024"), ("height", "576"), ("seed", toString (seed.getD 0)), ("nologo", "true")]
  else
    [("width", "1024"), ("height", "576"), ("nologo", "true")]

/-- Renders key/value pairs as an `&`-separated query string. -/
def renderQuery : List (String × String) → String
  | [] => ""
  | [(k, v)] => k ++ "=" ++ v
  | (k, v) :: p :: rest => k ++ "=" ++ v ++ "&" ++ renderQuery (p :: rest)

/-- The fixed keyword suffix of line 194. -/
def consistency_keywords : String :=
  "consistent character design, same art style, high quality, detailed, 4k"

/-- Outcomes of the external world for one `generate_image` call:
whether anything inside the `try` raises (network/timeout/draw), the HTTP
status code, whether `Image.open` succeeds, and whether the saved file
exists afterwards (`os.path.exists`, line 226). -/
structure ImgEnv where
  raises : Bool
  status : Nat
  decodeOk : Bool
  savedExists : Bool
deriving DecidableEq

/-- Function `create_placeholder` (lines 242-281): renders a local fallback image
(the drawing and word-wrapping produce no observable data here), saves it
under the same scene-indexed filename, registers the absolute path and
returns it. -/
def create_placeholder (cwd : String) (scene_number : Nat) (_text : String)
    (reg : StoryboardFiles) : String × StoryboardFiles :=
  let image_path := "scene_" ++ toString scene_number ++ ".png"
  let p := abspath cwd image_path
  (p, reg.add_image scene_number p)

/-- Function `generate_image` (lines 191-239).  The branch order follows the source:
a raise anywhere in the `try` (including `Image.open`, whose failure is the
decode case) lands in `except` and yields the placeholder; a non-200 status
or a failed save-verification also yields the placeholder; otherwise the
saved file is registered and its absolute path returned. -/
def generate_image (cwd : String) (env : ImgEnv) (prompt : String) (scene_number : Nat)
    (_style_reference : String) (seed : Option Nat) (reg : StoryboardFiles) :
    String × StoryboardFiles :=
  let enhanced_prompt := prompt ++ ", " ++ consistency_keywords
  let _image_url := imageURL (pyQuote enhanced_prompt) seed
  let image_path := "scene_" ++ toString scene_number ++ ".png"
  if env.raises then create_placeholder cwd scene_number prompt reg
  else if env.status = 200 then
    if env.decodeOk then
      if env.savedExists then
        let p := abspath cwd image_path
        (p, reg.add_image scene_number p)
      else create_placeholder cwd scene_number prompt reg
    else create_placeholder cwd scene_number prompt reg
  else create_placeholder cwd scene_number prompt reg

/-! ## Audio synthesizer (app.py lines 288-320) -/

/-- Outcomes of the external world for one `generate_audio` call: whether
the bridged TTS call raises, whether the output file exists afterwards, and
the size `os.path.getsize` would report for it. -/
structure AudioEnv where
  ttsRaises : Bool
  fileExists : Bool
  fileSize : Nat
deriving DecidableEq

/-- Function `generate_audio` (lines 294-320): on a raise return `None`; otherwise
verify with `os.path.exists` only — the size is read for the log line and
not tested — then register and return the absolute path, or return `None`
when the file is missing. -/
def generate_audio (cwd : String) (env : AudioEnv) (_text : String) (scene_number : Nat)
    (_voice : String) (reg : StoryboardFiles) : Option String × StoryboardFiles :=
  let audio_path := "narration_" ++ toString scene_number ++ ".mp3"
  if env.ttsRaises then (none, reg)
  else if env.fileExists then
    let _size := env.fileSize
    let p := abspath cwd audio_path
    (some p, reg.add_audio scene_number p)
  else (none, reg)

/-! ## Video assembler (app.py lines 327-535) -/

/-- Outcomes of the external world for one `make_video_simple` call:
on-disk existence of paths, loadability/duration of audio files
(`AudioFileClip`), whether the scene-body `ImageClip` construction raises
for a given image path (caught by the per-scene `except` of lines 447-450),
whether `set_audio` raises for a given audio path (caught at lines
440-441), whether the title/end `ImageClip` constructions in their `try`
blocks succeed, whether `write_videofile` raises, and existence/size of
the exported file. -/
structure VideoEnv where
  fsExists : String → Bool
  audioDur : String → Option ℚ
  imageClipRaises : String → Bool
  setAudioRaises : String → Bool
  titleClipOk : Bool
  endClipOk : Bool
  exportRaises : Bool
  outputExists : Bool
  outputSize : Nat

/-- The observable shape of one assembled clip: its duration in seconds and
whether an audio track is attached. -/
structure Clip where
  duration : ℚ
  hasAudio : Bool
deriving DecidableEq

/-- The per-scene body of the loop in lines 395-450: skip (no clip) when
the registry has no image path, the path is falsy, or the file is missing
(lines 406-408); also skip when `ImageClip(image_path)` raises, since the
per-scene `except` of lines 447-450 then drops the clip; otherwise a still
clip whose duration is `audio.duration + 1.0` when the audio path is
truthy, on disk and loadable — with the audio attached when `set_audio`
succeeds, and without it (duration unchanged) when `set_audio` raises into
the `except` of lines 440-441 — and the default `5.0` without audio
otherwise. -/
def sceneClip (env : VideoEnv) (reg : StoryboardFiles) (scene_num : Nat) : Option Clip :=
  let image_path := reg.get_image scene_num
  let audio_path := reg.get_audio scene_num
  match image_path with
  | none => none
  | some ip =>
    if ip = "" ∨ env.fsExists ip = false then none
    else if env.imageClipRaises ip = true then none
    else
      match audio_path with
      | some ap =>
        if ap ≠ "" ∧ env.fsExists ap = true then
          match env.audioDur ap with
          | some d =>
            if env.setAudioRaises ap = true then some { duration := d + 1, hasAudio := false }
            else some { duration := d + 1, hasAudio := true }
          | none => some { duration := 5, hasAudio := false }
        else some { duration := 5, hasAudio := false }
      | none => some { duration := 5, hasAudio := false }

/-- The full clip list of `make_video_simple`: title card (3 s, lines
374-388), the scene clips for `scene_num` in `1..num_scenes` in order
(lines 395-450), end card (3 s, lines 455-468). -/
def allClips (env : VideoEnv) (reg : StoryboardFiles) (num_scenes : Nat) : List Clip :=
  (if env.titleClipOk then [{ duration := 3, hasAudio := false }] else []) ++
    (List.range num_scenes).filterMap (fun i => sceneClip env reg (i + 1)) ++
    (if env.endClipOk then [{ duration := 3, hasAudio := false }] else [])

/-- Function `make_video_simple` (lines 359-535): build the clip list, fail when it
has fewer than 2 entries (line 475), fail when the export raises (caught at
line 531), then return the absolute output path exactly when the exported
file exists (line 520) — its size is computed only for the log line. -/
def make_video_simple (cwd : String) (env : VideoEnv) (story_data : StoryData)
    (reg : StoryboardFiles) (num_scenes : Nat) : Option String :=
  let _title := (story_data.title.getD "My Story").take 40
  let all_clips := allClips env reg num_scenes
  if all_clips.length < 2 then none
  else if env.exportRaises then none
  else if env.outputExists then some (abspath cwd "final_storyboard.mp4")
  else none

/-! ## Pipeline orchestrator (app.py lines 542-655) -/

/-- The run-result dict built by `generate_storyboard`.  The image and audio
lists mirror the `results["images"]` / `results["audio"]` lists: one entry
per scene, `none` where the Python list holds `None`. -/
structure RunResult where
  status : String
  story : Option StoryData
  images : List (Option String)
  audio : List (Option String)
  video : Option String
  error : Option String

/-- External-world outcomes for one whole run: the parsed LLM response, one
`ImgEnv` per scene index, one `AudioEnv` per scene index, the assembly
environment, and the value of Python's `hash(story_idea)`. -/
structure OrchEnv where
  compile : Option StoryData
  imgEnvs : Nat → ImgEnv
  audEnvs : Nat → AudioEnv
  videoEnv : VideoEnv
  hashVal : Nat

/-- STEP 2 of `generate_storyboard` (lines 595-603): `for i, scene in
enumerate(actual_scenes)` with `scene_num = i + 1` and `seed = base_seed + i`;
every result is appended to the image list. -/
def imageLoop (cwd : String) (envs : Nat → ImgEnv) (style_ref : String) (base_seed : Nat) :
    List Scene → Nat → StoryboardFiles → List (Option String) × StoryboardFiles
  | [], _, reg => ([], reg)
  | scene :: rest, i, reg =>
    let scene_num := i + 1
    let prompt := scene.visual_prompt.getD ("Scene " ++ toString scene_num)
    let r := generate_image cwd (envs i) prompt scene_num style_ref (some (base_seed + i)) reg
    let tail := imageLoop cwd envs style_ref base_seed rest (i + 1) r.2
    (some r.1 :: tail.1, tail.2)

/-- STEP 3 of `generate_storyboard` (lines 612-621): scenes with truthy
narration get a TTS call whose (possibly `None`) result is appended; scenes
without narration get `None` appended and no call. -/
def audioLoop (cwd : String) (envs : Nat → AudioEnv) (voice : String) :
    List Scene → Nat → StoryboardFiles → List (Option String) × StoryboardFiles
  | [], _, reg => ([], reg)
  | scene :: rest, i, reg =>
    let scene_num := i + 1
    let narration := scene.narration.getD ""
    if narration ≠ "" then
      let r := generate_audio cwd (envs i) narration scene_num voice reg
      let tail := audioLoop cwd envs voice rest (i + 1) r.2
      (r.1 :: tail.1, tail.2)
    else
      let tail := audioLoop cwd envs voice rest (i + 1) reg
      (none :: tail.1, tail.2)

/-- Function `generate_storyboard` (lines 542-655).  The registry is reset at run
start; `if not story_data:` (line 572) returns the error result immediately,
both when compilation failed (`None`) and when it produced a falsy (empty)
document — the `story` field is only set after that test; otherwise
images and audio are generated for each actual scene, video assembly runs on
`len(actual_scenes)`, and the status is `completed` exactly when a video
path came back, `partial` otherwise.  The `num_scenes` argument only shapes
the LLM request, which the compile environment already abstracts. -/
def generate_storyboard (cwd : String) (env : OrchEnv) (reg0 : StoryboardFiles)
    (num_scenes : Nat) (voice : String) : RunResult × StoryboardFiles :=
  let _requested := num_scenes
  let reg := reg0.reset
  match generate_consistent_story env.compile with
  | none =>
    ({ status := "error", story := none, images := [], audio := [], video := none,
       error := some "Failed to generate story" }, reg)
  | some story_data =>
    if story_data.truthy = false then
      ({ status := "error", story := none, images := [], audio := [], video := none,
         error := some "Failed to generate story" }, reg)
    else
    let actual_scenes := story_data.scenes.getD []
    let visual_bible := story_data.visual_bible.getD VisualBible.empty
    let style_ref := visual_bible.art_style.getD "" ++ ", " ++ visual_bible.color_palette.getD ""
    let base_seed := env.hashVal % 100000
    let ir := imageLoop cwd env.imgEnvs style_ref base_seed actual_scenes 0 reg
    let ar := audioLoop cwd env.audEnvs voice actual_scenes 0 ir.2
    let video_path := make_video_simple cwd env.videoEnv story_data ar.2 actual_scenes.length
    ({ status := if video_path.isSome then "completed" else "partial",
       story := some story_data,
       images := ir.1,
       audio := ar.1,
       video := video_path,
       error := if video_path.isSome then none
                else some "Images generated but video creation failed" }, ar.2)

/-- Spec-side restatement of the per-scene assembly step, following the
specification's words: skip the scene when the image path is absent or the
file does not exist on disk; otherwise the clip lasts
`audio_duration + 1.0` seconds with audio attached when the audio path is
present and loadable, and a fixed `5.0` seconds with no audio when it is
absent or unloadable.  To be compared with `sceneClip`, which is translated
from the source. -/
def sceneClipSpec (env : VideoEnv) (reg : StoryboardFiles) (scene_num : Nat) : Option Clip :=
  match reg.get_image scene_num with
  | none => none
  | some ip =>
    if env.fsExists ip = true then
      match reg.get_audio scene_num with
      | some ap =>
        if env.fsExists ap = true then
          match env.audioDur ap with
          | some d => some { duration := d + 1, hasAudio := true }
          | none => some { duration := 5, hasAudio := false }
        else some { duration := 5, hasAudio := false }
      | none => some { duration := 5, hasAudio := false }
    else none

/-! ## Concrete fixtures used by witnesses and counterexamples -/

/-- A parsed LLM response whose single scene prompt lacks the main
character. -/
def c1resp : StoryData :=
  { title := some "T",
    visual_bible := some
      { art_style := some "oil", color_palette := some "warm", main_character := some "Robo",
        secondary_characters := none, world_setting := none },
    scenes := some [{ scene_number := some 1, description := none,
                      visual_prompt := some "a garden", narration := some "hi",
                      camera_angle := none, mood := none, style_reference := none }] }

/-- The scene of `c1resp` after the enhancement pass. -/
def c1scene : Scene :=
  { scene_number := some 1, description := none,
    visual_prompt := some "Robo, a garden, oil, warm, consistent character design",
    narration := some "hi", camera_angle := none, mood := none,
    style_reference := some "oil, warm" }

/-- The document of `c1resp` after the enhancement pass. -/
def c1sd : StoryData :=
  { title := some "T",
    visual_bible := some
      { art_style := some "oil", color_palette := some "warm", main_character := some "Robo",
        secondary_characters := none, world_setting := none },
    scenes := some [c1scene] }

/-- An image-stage environment in which the request raises. -/
def c2env : ImgEnv :=
  { raises := true, status := 200, decodeOk := true, savedExists := true }

/-- An assembly environment with nominal cards and export but no scene file
on disk. -/
def ceVideoEnv : VideoEnv :=
  { fsExists := fun _ => false, audioDur := fun _ => none,
    imageClipRaises := fun _ => false, setAudioRaises := fun _ => false,
    titleClipOk := true, endClipOk := true, exportRaises := false, outputExists := true,
    outputSize := 9 }

/-- A minimal story document (only the title is consulted by assembly). -/
def ceSD : StoryData :=
  { title := some "T", visual_bible := none, scenes := none }

/-- An assembly environment in which exactly the file of scene 1 is on
disk. -/
def c3env : VideoEnv :=
  { fsExists := fun s => s == "/w/scene_1.png", audioDur := fun _ => none,
    imageClipRaises := fun _ => false, setAudioRaises := fun _ => false,
    titleClipOk := true, endClipOk := true, exportRaises := false, outputExists := true,
    outputSize := 9 }

/-- A registry holding an image for scene 1 only. -/
def c3reg : StoryboardFiles :=
  StoryboardFiles.init.add_image 1 "/w/scene_1.png"

/-- A TTS environment that succeeds but leaves a zero-byte file. -/
def c4env : AudioEnv :=
  { ttsRaises := false, fileExists := true, fileSize := 0 }

/-- A parsed LLM response whose single scene is numbered 7. -/
def c6resp : StoryData :=
  { title := some "T",
    visual_bible := some
      { art_style := some "a", color_palette := some "c", main_character := some "M",
        secondary_characters := none, world_setting := none },
    scenes := some [{ scene_number := some 7, description := none,
                      visual_prompt := some "M here", narration := none,
                      camera_angle := none, mood := none, style_reference := none }] }

/-- A whole-run environment around `c6resp` with nominal external calls. -/
def c6env : OrchEnv :=
  { compile := some c6resp,
    imgEnvs := fun _ => { raises := false, status := 200, decodeOk := true, savedExists := true },
    audEnvs := fun _ => { ttsRaises := false, fileExists := true, fileSize := 5 },
    videoEnv := ceVideoEnv,
    hashVal := 42 }

/-- An assembly environment with nominal export whose reported output size
is zero. -/
def c8env : VideoEnv :=
  { fsExists := fun _ => false, audioDur := fun _ => none,
    imageClipRaises := fun _ => false, setAudioRaises := fun _ => false,
    titleClipOk := true, endClipOk := true, exportRaises := false, outputExists := true,
    outputSize := 0 }

/-- An assembly environment in which scene 1's image is on disk but its
clip construction raises, and scene 2's audio loads (duration 7) but
`set_audio` raises. -/
def c5ceEnv : VideoEnv :=
  { fsExists := fun s =>
      s == "/w/scene_1.png" || s == "/w/scene_2.png" || s == "/w/narration_2.mp3",
    audioDur := fun s => if s == "/w/narration_2.mp3" then some 7 else none,
    imageClipRaises := fun s => s == "/w/scene_1.png",
    setAudioRaises := fun s => s == "/w/narration_2.mp3",
    titleClipOk := true, endClipOk := true, exportRaises := false, outputExists := true,
    outputSize := 9 }

/-- A registry with images for scenes 1 and 2 and audio for scene 2. -/
def c5ceReg : StoryboardFiles :=
  ((StoryboardFiles.init.add_image 1 "/w/scene_1.png").add_image 2
    "/w/scene_2.png").add_audio 2 "/w/narration_2.mp3"

/-- The empty parsed document `{}`: a successful parse that is falsy in
Python. -/
def emptyDoc : StoryData :=
  { title := none, visual_bible := none, scenes := none }

/-- A whole-run environment whose compilation parses the empty document. -/
def c7env : OrchEnv :=
  { compile := some emptyDoc,
    imgEnvs := fun _ => { raises := false, status := 200, decodeOk := true, savedExists := true },
    audEnvs := fun _ => { ttsRaises := false, fileExists := true, fileSize := 5 },
    videoEnv := ceVideoEnv,
    hashVal := 0 }

/-! ## Helper lemmas -/

theorem strData (a b : String) : (a ++ b).data = a.data ++ b.data := by
  cases a; cases b; rfl

theorem strExt {a b : String} (h : a.data = b.data) : a = b := by
  cases a; cases b; exact congrArg String.mk h

theorem pyLower_data (s : String) : (pyLower s).data = s.data.map Char.toLower := rfl

theorem add_image_images (f : StoryboardFiles) (n : Nat) (p : String) (m : Nat) :
    (f.add_image n p).images m = if m = n then some p else f.images m := rfl

theorem add_audio_images (f : StoryboardFiles) (n : Nat) (p : String) :
    (f.add_audio n p).images = f.images := rfl

theorem generate_image_fst (cwd : String) (env : ImgEnv) (prompt : String) (n : Nat)
    (sr : String) (seed : Option Nat) (reg : StoryboardFiles) :
    (generate_image cwd env prompt n sr seed reg).1 =
      abspath cwd ("scene_" ++ toString n ++ ".png") := by
  rcases env with ⟨r, st, dec, sv⟩
  cases r <;> cases dec <;> cases sv <;>
    by_cases hst : st = 200 <;>
    simp [generate_image, create_placeholder, hst]

theorem generate_image_snd (cwd : String) (env : ImgEnv) (prompt : String) (n : Nat)
    (sr : String) (seed : Option Nat) (reg : StoryboardFiles) :
    (generate_image cwd env prompt n sr seed reg).2 =
      reg.add_image n (abspath cwd ("scene_" ++ toString n ++ ".png")) := by
  rcases env with ⟨r, st, dec, sv⟩
  cases r <;> cases dec <;> cases sv <;>
    by_cases hst : st = 200 <;>
    simp [generate_image, create_placeholder, hst]

theorem generate_audio_images (cwd : String) (env : AudioEnv) (t : String) (n : Nat)
    (v : String) (reg : StoryboardFiles) :
    ((generate_audio cwd env t n v reg).2).images = reg.images := by
  rcases env with ⟨tr, fe, fs⟩
  cases tr <;> cases fe <;> simp [generate_audio, add_audio_images]

theorem imageLoop_all_some (cwd : String) (envs : Nat → ImgEnv) (sr : String) (bs : Nat)
    (scenes : List Scene) : ∀ (i : Nat) (reg : StoryboardFiles),
    ((imageLoop cwd envs sr bs scenes i reg).1).all Option.isSome = true := by
  induction scenes with
  | nil => intro i reg; simp [imageLoop]
  | cons s rest ih => intro i reg; simp [imageLoop, ih]

theorem imageLoop_images (cwd : String) (envs : Nat → ImgEnv) (sr : String) (bs : Nat)
    (scenes : List Scene) : ∀ (i : Nat) (reg : StoryboardFiles) (m : Nat),
    ((imageLoop cwd envs sr bs scenes i reg).2).images m =
      if i < m ∧ m ≤ i + scenes.length then
        some (abspath cwd ("scene_" ++ toString m ++ ".png"))
      else reg.images m := by
  induction scenes with
  | nil =>
    intro i reg m
    simp only [imageLoop, List.length_nil, Nat.add_zero]
    rw [if_neg]
    omega
  | cons s rest ih =>
    intro i reg m
    simp only [imageLoop]
    rw [ih, generate_image_snd, add_image_images]
    by_cases h1 : i + 1 < m ∧ m ≤ i + 1 + rest.length
    · rw [if_pos h1, if_pos (by simp only [List.length_cons]; omega)]
    · rw [if_neg h1]
      by_cases h2 : m = i + 1
      · subst h2
        rw [if_pos rfl, if_pos (by simp only [List.length_cons]; omega)]
      · rw [if_neg h2, if_neg (by simp only [List.length_cons]; omega)]

theorem audioLoop_images (cwd : String) (envs : Nat → AudioEnv) (voice : String)
    (scenes : List Scene) : ∀ (i : Nat) (reg : StoryboardFiles),
    ((audioLoop cwd envs voice scenes i reg).2).images = reg.images := by
  induction scenes with
  | nil => intro i reg; simp [audioLoop]
  | cons s rest ih =>
    intro i reg
    simp only [audioLoop]
    by_cases h : s.narration.getD "" ≠ ""
    · rw [if_pos h, ih, generate_audio_images]
    · rw [if_neg h, ih]

theorem abspath_isAbsolute (cwd p : String) (h : isAbsolutePath cwd) :
    isAbsolutePath (abspath cwd p) := by
  unfold isAbsolutePath at h ⊢
  unfold abspath
  rcases cwd with ⟨l⟩
  cases l with
  | nil => simp at h
  | cons c t =>
    simp only [List.head?_cons, Option.some.injEq] at h
    subst h
    simp [strData]

/-! ## Claim C9 -/

/-- C9: after `StoryboardFiles.reset`, `get_image n` and `get_audio n`
return the absence indicator for every `n`, including every previously
populated `n` (the starting state `f` is arbitrary), and `reset` is
idempotent. -/
theorem registry_reset_clears (f : StoryboardFiles) (n : Nat) :
    (f.reset).get_image n = none ∧ (f.reset).get_audio n = none ∧
      f.reset.reset = f.reset :=
  ⟨rfl, rfl, rfl⟩

/-! ## Claim C4 -/

/-- C4 counterexample: with a TTS call that succeeds but leaves a zero-byte
file (`fileSize = 0`), `generate_audio` still returns the path and still
registers it — the claimed non-emptiness verification does not happen. -/
theorem generate_audio_empty_file_registered :
    c4env.fileSize = 0 ∧
    (generate_audio "/w" c4env "hello" 2 "en-US-AriaNeural" StoryboardFiles.init).1 =
      some "/w/narration_2.mp3" ∧
    ((generate_audio "/w" c4env "hello" 2 "en-US-AriaNeural" StoryboardFiles.init).2).get_audio 2 =
      some "/w/narration_2.mp3" := by
  refine ⟨rfl, by decide, by decide⟩

/-- C4 amended: `generate_audio` registers a path and returns it exactly
when the call did not raise and the output file exists; the file size is
read only for logging and never checked, and on the failure branches
nothing is registered (the registry is returned unchanged). -/
theorem generate_audio_amended (cwd : String) (env : AudioEnv) (text : String)
    (n : Nat) (voice : String) (reg : StoryboardFiles) :
    generate_audio cwd env text n voice reg =
      if env.ttsRaises = false ∧ env.fileExists = true then
        (some (abspath cwd ("narration_" ++ toString n ++ ".mp3")),
         reg.add_audio n (abspath cwd ("narration_" ++ toString n ++ ".mp3")))
      else (none, reg) := by
  rcases env with ⟨tr, fe, fs⟩
  cases tr <;> cases fe <;> simp [generate_audio]

/-! ## Claim C3 -/

/-- C3 counterexample: a run in which every scene is skipped (empty
registry, three requested scenes) still has the 2 clips of the title and
end cards, so assembly does not fail: it returns a path. -/
theorem allScenesSkipped_still_succeeds :
    sceneClip ceVideoEnv StoryboardFiles.init 1 = none ∧
    sceneClip ceVideoEnv StoryboardFiles.init 2 = none ∧
    sceneClip ceVideoEnv StoryboardFiles.init 3 = none ∧
    (allClips ceVideoEnv StoryboardFiles.init 3).length = 2 ∧
    make_video_simple "/w" ceVideoEnv ceSD StoryboardFiles.init 3 =
      some "/w/final_storyboard.mp4" := by
  refine ⟨by decide, by decide, by decide, by decide, by decide⟩

/-- C3 amended: assembly returns no path exactly when fewer than 2 clips
exist, the export raises, or the exported file is missing; a run with every
scene skipped keeps the title and end cards (2 clips, as the counterexample
shows), and title + 1 scene + end (3 clips) succeeds. -/
theorem make_video_clip_threshold_amended :
    (∀ (cwd : String) (env : VideoEnv) (sd : StoryData) (reg : StoryboardFiles) (n : Nat),
      make_video_simple cwd env sd reg n = none ↔
        ((allClips env reg n).length < 2 ∨ env.exportRaises = true ∨
          env.outputExists = false)) ∧
    (allClips c3env c3reg 1).length = 3 ∧
    (make_video_simple "/w" c3env ceSD c3reg 1).isSome = true := by
  refine ⟨?_, by decide, by decide⟩
  intro cwd env sd reg n
  simp only [make_video_simple]
  split_ifs with h1 h2 h3 <;> simp_all

/-! ## Claim C8 -/

/-- C8 counterexample: with a nominal export whose output file exists but
has size zero, `make_video_simple` still returns a path — the claimed
non-zero-size verification does not happen. -/
theorem export_zero_size_returns_path :
    c8env.outputSize = 0 ∧
    make_video_simple "/w" c8env ceSD StoryboardFiles.init 1 =
      some "/w/final_storyboard.mp4" := by
  exact ⟨rfl, by decide⟩

/-- C8 amended: the reported output size never influences the result, and
when at least 2 clips exist and the export does not raise, a path is
returned exactly when the exported file exists on disk. -/
theorem export_check_amended (cwd : String) (env : VideoEnv) (sd : StoryData)
    (reg : StoryboardFiles) (n : Nat) (k : Nat)
    (h1 : 2 ≤ (allClips env reg n).length) (h2 : env.exportRaises = false) :
    make_video_simple cwd { env with outputSize := k } sd reg n =
      make_video_simple cwd env sd reg n ∧
    ((make_video_simple cwd env sd reg n).isSome = true ↔ env.outputExists = true) := by
  constructor
  · rfl
  · simp only [make_video_simple]
    rw [if_neg (by omega), if_neg (by simp [h2])]
    cases henv : env.outputExists <;> simp

/-- Witness for the amended C8 statement at a concrete environment. -/
theorem export_check_amended_witness :
    (make_video_simple "/w" { c8env with outputSize := 3 } ceSD StoryboardFiles.init 0 =
      make_video_simple "/w" c8env ceSD StoryboardFiles.init 0) ∧
    ((make_video_simple "/w" c8env ceSD StoryboardFiles.init 0).isSome = true ↔
      c8env.outputExists = true) :=
  export_check_amended "/w" c8env ceSD StoryboardFiles.init 0 3 (by decide) (by decide)

/-! ## Claim C7 -/

/-- C7 counterexample: the empty parsed document is a document the story
compiler returns (not the absence indicator), yet the run status is
`error`, because `if not story_data:` also fires on a falsy document. -/
theorem empty_document_status_error_ce :
    generate_consistent_story (some emptyDoc) = some emptyDoc ∧
    ¬ (generate_consistent_story (some emptyDoc) = none) ∧
    ((generate_storyboard "/w" c7env StoryboardFiles.init 1 "en-US-AriaNeural").1).status =
      "error" := by
  refine ⟨by decide, by decide, by decide⟩

/-- C7 amended: the run status is `error` exactly when the compiler
returned no document or a falsy (empty) one, `partial` exactly when a
truthy document was obtained but no video path came back, `completed`
exactly when a video path came back, and no other status is ever
returned. -/
theorem run_status_amended (cwd : String) (env : OrchEnv) (reg0 : StoryboardFiles)
    (n : Nat) (voice : String) :
    ((generate_storyboard cwd env reg0 n voice).1.status = "error" ↔
      (generate_consistent_story env.compile = none ∨
        ∃ sd, generate_consistent_story env.compile = some sd ∧ sd.truthy = false)) ∧
    ((generate_storyboard cwd env reg0 n voice).1.status = "partial" ↔
      ((∃ sd, generate_consistent_story env.compile = some sd ∧ sd.truthy = true) ∧
        (generate_storyboard cwd env reg0 n voice).1.video = none)) ∧
    ((generate_storyboard cwd env reg0 n voice).1.status = "completed" ↔
      ((generate_storyboard cwd env reg0 n voice).1.video).isSome = true) ∧
    ((generate_storyboard cwd env reg0 n voice).1.status = "error" ∨
      (generate_storyboard cwd env reg0 n voice).1.status = "partial" ∨
      (generate_storyboard cwd env reg0 n voice).1.status = "completed") := by
  cases hc : env.compile with
  | none =>
    refine ⟨?_, ?_, ?_, ?_⟩ <;>
      simp [generate_storyboard, generate_consistent_story, hc]
  | some d =>
    by_cases ht : (enhance_visual_prompts d).truthy = false
    · refine ⟨?_, ?_, ?_, ?_⟩ <;>
        simp [generate_storyboard, generate_consistent_story, hc, ht]
    · have ht' : (enhance_visual_prompts d).truthy = true := by
        cases htv : (enhance_visual_prompts d).truthy
        · exact absurd htv ht
        · rfl
      have hst : (generate_storyboard cwd env reg0 n voice).1.status =
          (if ((generate_storyboard cwd env reg0 n voice).1.video).isSome then "completed"
           else "partial") := by
        simp only [generate_storyboard, generate_consistent_story, hc]
        rw [if_neg ht]
      cases hov : (generate_storyboard cwd env reg0 n voice).1.video with
      | none =>
        rw [hov] at hst
        refine ⟨?_, ?_, ?_, ?_⟩ <;>
          simp [hst, hov, generate_consistent_story, hc, ht']
      | some p =>
        rw [hov] at hst
        refine ⟨?_, ?_, ?_, ?_⟩ <;>
          simp [hst, hov, generate_consistent_story, hc, ht']

/-! ## Claim C10 -/

/-- C10: the request URL of `generate_image` carries a `seed` query
parameter exactly when the seed argument is truthy (`if seed:`), the URL
decomposes as the base plus the rendered query parameters, and for a story
idea whose base seed `hash % 100000` is zero the first scene
(`seed = base_seed + 0 = 0`) is requested without a seed while every later
scene (`seed = base_seed + i > 0`) is requested with one. -/
theorem seed_truthiness (enc : String) (h i : Nat) :
    (∀ s : Option Nat, (((imageQuery s).map Prod.fst).contains "seed") = seedTruthy s) ∧
    (∀ s : Option Nat, imageURL enc s =
      "https://image.pollinations.ai/prompt/" ++ enc ++ "?" ++ renderQuery (imageQuery s)) ∧
    (h % 100000 = 0 → imageURL enc (some (h % 100000 + 0)) =
      "https://image.pollinations.ai/prompt/" ++ enc ++ "?width=1024&height=576&nologo=true") ∧
    (h % 100000 = 0 → 0 < i → imageURL enc (some (h % 100000 + i)) =
      "https://image.pollinations.ai/prompt/" ++ enc ++ "?width=1024&height=576&seed=" ++
        toString i ++ "&nologo=true") := by
  refine ⟨?_, ?_, ?_, ?_⟩
  · intro s
    cases s with
    | none => decide
    | some m =>
      by_cases hm : m = 0
      · subst hm; decide
      · have ht : seedTruthy (some m) = true := by simp [seedTruthy, hm]
        rw [ht]
        simp only [imageQuery, ht, if_true, List.map_cons, List.map_nil]
        decide
  · intro s
    cases hts : seedTruthy s with
    | false =>
      simp only [imageURL, imageQuery, hts, Bool.false_eq_true, if_false]
      apply strExt
      simp only [strData, List.append_assoc]
      rfl
    | true =>
      simp only [imageURL, imageQuery, hts, if_true]
      apply strExt
      simp only [strData, renderQuery, List.append_assoc]
      rfl
  · intro h0
    have hz : h % 100000 + 0 = 0 := by omega
    rw [hz]
    simp [imageURL, seedTruthy]
  · intro h0 hi
    have hz : h % 100000 + i = i := by omega
    rw [hz]
    have ht : seedTruthy (some i) = true := by
      simp only [seedTruthy, bne_iff_ne, ne_eq, decide_eq_true_eq]
      omega
    simp [imageURL, ht]

/-- Witness for C10 at a concrete hash value with zero base seed. -/
theorem seed_truthiness_witness :
    (100000 : Nat) % 100000 = 0 ∧
    imageURL "p" (some (100000 % 100000 + 0)) =
      "https://image.pollinations.ai/prompt/" ++ "p" ++ "?width=1024&height=576&nologo=true" ∧
    imageURL "p" (some (100000 % 100000 + 2)) =
      "https://image.pollinations.ai/prompt/" ++ "p" ++ "?width=1024&height=576&seed=" ++
        toString 2 ++ "&nologo=true" :=
  ⟨by decide, (seed_truthiness "p" 100000 2).2.2.1 (by decide),
    (seed_truthiness "p" 100000 2).2.2.2 (by decide) (by decide)⟩

/-! ## Claim C2 -/

/-- C2: `generate_image` always returns an absolute file path; in every
outcome the registry it returns is the input registry with exactly that
path registered under the scene number; every failure outcome (raise,
non-200 status, decode failure, save-verification failure) produces the
placeholder result; and the orchestrator's per-run image list therefore
never contains a null entry. -/
theorem generate_image_always_registers (cwd : String) (env : ImgEnv) (prompt : String)
    (n : Nat) (sr : String) (seed : Option Nat) (reg : StoryboardFiles)
    (h : isAbsolutePath cwd) :
    isAbsolutePath (generate_image cwd env prompt n sr seed reg).1 ∧
    (generate_image cwd env prompt n sr seed reg).2 =
      reg.add_image n (generate_image cwd env prompt n sr seed reg).1 ∧
    ((env.raises = true ∨ env.status ≠ 200 ∨ env.decodeOk = false ∨ env.savedExists = false) →
      generate_image cwd env prompt n sr seed reg = create_placeholder cwd n prompt reg) ∧
    (∀ (cwd2 : String) (oenv : OrchEnv) (reg0 : StoryboardFiles) (N : Nat) (voice : String),
      ((generate_storyboard cwd2 oenv reg0 N voice).1.images).all Option.isSome = true) := by
  refine ⟨?_, ?_, ?_, ?_⟩
  · rw [generate_image_fst]
    exact abspath_isAbsolute _ _ h
  · rw [generate_image_fst, generate_image_snd]
  · intro hfail
    rcases env with ⟨r, st, dec, sv⟩
    cases r <;> cases dec <;> cases sv <;>
      by_cases h200 : st = 200 <;> simp_all [generate_image]
  · intro cwd2 oenv reg0 N voice
    cases hc : oenv.compile with
    | none => simp [generate_storyboard, generate_consistent_story, hc]
    | some d =>
      by_cases ht : (enhance_visual_prompts d).truthy = false <;>
        simp [generate_storyboard, generate_consistent_story, hc, ht, imageLoop_all_some]

/-- Witness for C2: a concrete raising environment, in which the result is
still an absolute path and equals the placeholder result. -/
theorem generate_image_always_registers_witness :
    isAbsolutePath (generate_image "/w" c2env "p" 3 "s" (some 5) StoryboardFiles.init).1 ∧
    generate_image "/w" c2env "p" 3 "s" (some 5) StoryboardFiles.init =
      create_placeholder "/w" 3 "p" StoryboardFiles.init := by
  have h := generate_image_always_registers "/w" c2env "p" 3 "s" (some 5)
    StoryboardFiles.init (by decide)
  exact ⟨h.1, h.2.2.1 (Or.inl rfl)⟩

/-! ## Claim C5 -/

/-- C5 counterexample: scene 1's registry image path is present and its
file exists, yet the scene is skipped because `ImageClip` raises into the
per-scene `except`; and scene 2's audio is present and loadable (duration
7), yet the built clip has duration 8 with **no** audio attached because
`set_audio` raises into its `except`. -/
theorem sceneClip_policy_ce :
    c5ceReg.get_image 1 = some "/w/scene_1.png" ∧
    c5ceEnv.fsExists "/w/scene_1.png" = true ∧
    sceneClip c5ceEnv c5ceReg 1 = none ∧
    c5ceReg.get_audio 2 = some "/w/narration_2.mp3" ∧
    c5ceEnv.audioDur "/w/narration_2.mp3" = some 7 ∧
    sceneClip c5ceEnv c5ceReg 2 = some { duration := 7 + 1, hasAudio := false } ∧
    (7 : ℚ) + 1 = 8 := by
  refine ⟨by decide, by decide, by decide, by decide, by decide, rfl, by norm_num⟩

/-- C5 amended: the spec's per-scene policy (`sceneClipSpec`) holds
whenever the per-scene `ImageClip` construction and `set_audio` do not
raise (and the empty path does not exist on disk); when `ImageClip` raises,
a scene whose image exists is still skipped; and when `set_audio` raises on
loadable audio, the clip keeps the `audio_duration + 1.0` duration but has
no audio attached. -/
theorem sceneClip_policy_amended (env : VideoEnv) (reg : StoryboardFiles) (n : Nat)
    (h : env.fsExists "" = false) :
    ((∀ p, env.imageClipRaises p = false) → (∀ p, env.setAudioRaises p = false) →
      sceneClip env reg n = sceneClipSpec env reg n) ∧
    (∀ ip, reg.get_image n = some ip → env.fsExists ip = true →
      env.imageClipRaises ip = true → sceneClip env reg n = none) ∧
    (∀ ip ap d, reg.get_image n = some ip → env.fsExists ip = true →
      env.imageClipRaises ip = false → reg.get_audio n = some ap → ap ≠ "" →
      env.fsExists ap = true → env.audioDur ap = some d → env.setAudioRaises ap = true →
      sceneClip env reg n = some { duration := d + 1, hasAudio := false }) := by
  refine ⟨?_, ?_, ?_⟩
  · intro hic hsa
    rcases hip : reg.get_image n with _ | ip
    · simp [sceneClip, sceneClipSpec, hip]
    · rcases hap : reg.get_audio n with _ | ap
      · by_cases hie : ip = ""
        · subst hie; simp [sceneClip, sceneClipSpec, hip, hap, h]
        · cases hfe : env.fsExists ip
          · simp [sceneClip, sceneClipSpec, hip, hap, hie, hfe]
          · simp [sceneClip, sceneClipSpec, hip, hap, hie, hfe, hic]
      · by_cases hie : ip = ""
        · subst hie; simp [sceneClip, sceneClipSpec, hip, hap, h]
        · cases hfe : env.fsExists ip
          · simp [sceneClip, sceneClipSpec, hip, hap, hie, hfe]
          · by_cases hae : ap = ""
            · subst hae; simp [sceneClip, sceneClipSpec, hip, hap, hie, hfe, h, hic]
            · cases hfa : env.fsExists ap
              · simp [sceneClip, sceneClipSpec, hip, hap, hie, hfe, hfa, hae, hic]
              · simp [sceneClip, sceneClipSpec, hip, hap, hie, hfe, hfa, hae, hic, hsa]
  · intro ip hip hfe hicr
    have hie : ip ≠ "" := by
      intro he
      rw [he, h] at hfe
      simp at hfe
    simp [sceneClip, hip, hie, hfe, hicr]
  · intro ip ap d hip hfe hicr hap hae hfa hdur hsar
    have hie : ip ≠ "" := by
      intro he
      rw [he, h] at hfe
      simp at hfe
    simp [sceneClip, hip, hap, hie, hfe, hicr, hae, hfa, hdur, hsar]

/-- Witness for the amended C5 statement at concrete environments: the
no-raise equivalence at one, the raise-skip divergence at the other. -/
theorem sceneClip_policy_amended_witness :
    c3env.fsExists "" = false ∧
    sceneClip c3env c3reg 1 = sceneClipSpec c3env c3reg 1 ∧
    sceneClip c5ceEnv c5ceReg 1 = none :=
  ⟨by decide,
   (sceneClip_policy_amended c3env c3reg 1 (by decide)).1 (fun _ => rfl) (fun _ => rfl),
   (sceneClip_policy_amended c5ceEnv c5ceReg 1 (by decide)).2.1 "/w/scene_1.png"
     (by decide) (by decide) (by decide)⟩

/-! ## Claim C1 -/

theorem lower_pre_infix (mc rest full : String) (hfull : full.data = mc.data ++ rest.data) :
    pyIn (pyLower mc) (pyLower full) := by
  unfold pyIn
  apply List.IsPrefix.isInfix
  refine ⟨rest.data.map Char.toLower, ?_⟩
  simp [pyLower_data, hfull]

theorem lower_infix_extend (sub orig rest full : String)
    (hin : pyIn (pyLower sub) (pyLower orig)) (hfull : full.data = orig.data ++ rest.data) :
    pyIn (pyLower sub) (pyLower full) := by
  unfold pyIn at hin ⊢
  refine hin.trans ?_
  apply List.IsPrefix.isInfix
  refine ⟨rest.data.map Char.toLower, ?_⟩
  simp [pyLower_data, hfull]

theorem vp_ends (E cp : String) :
    pyEndsWith (E ++ ", " ++ cp ++ ", consistent character design")
      (cp ++ ", consistent character design") := by
  unfold pyEndsWith
  refine ⟨(E ++ ", ").data, ?_⟩
  simp [strData, List.append_assoc]

theorem enhanceScene_props (mc cp : String) (s0 : Scene) :
    ∃ vp, (enhanceScene mc cp s0).visual_prompt = some vp ∧
      pyIn (pyLower mc) (pyLower vp) ∧
      pyEndsWith vp (cp ++ ", consistent character design") ∧
      (enhanceScene mc cp s0).style_reference = some cp := by
  by_cases hcond : mc ≠ "" ∧ ¬ pyIn (pyLower mc) (pyLower (s0.visual_prompt.getD ""))
  · refine ⟨mc ++ ", " ++ s0.visual_prompt.getD "" ++ ", " ++ cp ++
      ", consistent character design", ?_, ?_, ?_, ?_⟩
    · simp [enhanceScene, hcond]
    · apply lower_pre_infix mc
        (", " ++ s0.visual_prompt.getD "" ++ ", " ++ cp ++ ", consistent character design")
      simp [strData, List.append_assoc]
    · exact vp_ends (mc ++ ", " ++ s0.visual_prompt.getD "") cp
    · simp [enhanceScene]
  · have h' : mc = "" ∨ pyIn (pyLower mc) (pyLower (s0.visual_prompt.getD "")) := by
      by_cases hmc : mc = ""
      · exact Or.inl hmc
      · refine Or.inr ?_
        by_contra hni
        exact hcond ⟨hmc, hni⟩
    refine ⟨s0.visual_prompt.getD "" ++ ", " ++ cp ++ ", consistent character design",
      ?_, ?_, ?_, ?_⟩
    · simp [enhanceScene, hcond]
    · rcases h' with hmc | hin
      · subst hmc
        unfold pyIn
        exact List.nil_infix
      · exact lower_infix_extend mc (s0.visual_prompt.getD "")
          (", " ++ cp ++ ", consistent character design") _ hin
          (by simp [strData, List.append_assoc])
    · exact vp_ends (s0.visual_prompt.getD "") cp
    · simp [enhanceScene]

/-- C1: every scene of a document returned by `generate_consistent_story`
has a final `visual_prompt` that contains the (defaulted) main character as
a case-insensitive substring and ends with
`art_style ++ ", " ++ color_palette ++ ", consistent character design"`,
and its `style_reference` equals `art_style ++ ", " ++ color_palette`. -/
theorem storyCompiler_prompt_consistency (resp : Option StoryData) (sd : StoryData)
    (hsd : generate_consistent_story resp = some sd)
    (scene : Scene) (hmem : scene ∈ sd.scenes.getD []) :
    ∃ vp, scene.visual_prompt = some vp ∧
      pyIn (pyLower ((sd.visual_bible.getD VisualBible.empty).main_character.getD ""))
        (pyLower vp) ∧
      pyEndsWith vp
        ((sd.visual_bible.getD VisualBible.empty).art_style.getD "digital art, cinematic" ++
          ", " ++ (sd.visual_bible.getD VisualBible.empty).color_palette.getD "vibrant colors" ++
          ", consistent character design") ∧
      scene.style_reference =
        some ((sd.visual_bible.getD VisualBible.empty).art_style.getD "digital art, cinematic" ++
          ", " ++
          (sd.visual_bible.getD VisualBible.empty).color_palette.getD "vibrant colors") := by
  cases resp with
  | none => simp [generate_consistent_story] at hsd
  | some sd0 =>
    simp only [generate_consistent_story, Option.some.injEq] at hsd
    subst hsd
    cases hsc : sd0.scenes with
    | none => simp [enhance_visual_prompts, hsc] at hmem
    | some l =>
      have hvb : (enhance_visual_prompts sd0).visual_bible = sd0.visual_bible := rfl
      rw [hvb]
      simp only [enhance_visual_prompts, hsc, Option.map_some, Option.getD_some] at hmem
      obtain ⟨s0, _, rfl⟩ := List.mem_map.1 hmem
      exact enhanceScene_props _ _ s0

/-- Witness for C1 at a concrete parsed response and its enhanced
document. -/
theorem storyCompiler_prompt_consistency_witness :
    ∃ vp, c1scene.visual_prompt = some vp ∧
      pyIn (pyLower ((c1sd.visual_bible.getD VisualBible.empty).main_character.getD ""))
        (pyLower vp) ∧
      pyEndsWith vp
        ((c1sd.visual_bible.getD VisualBible.empty).art_style.getD "digital art, cinematic" ++
          ", " ++
          (c1sd.visual_bible.getD VisualBible.empty).color_palette.getD "vibrant colors" ++
          ", consistent character design") ∧
      c1scene.style_reference =
        some ((c1sd.visual_bible.getD VisualBible.empty).art_style.getD "digital art, cinematic" ++
          ", " ++
          (c1sd.visual_bible.getD VisualBible.empty).color_palette.getD "vibrant colors") :=
  storyCompiler_prompt_consistency (some c1resp) c1sd (by decide) c1scene (by decide)

/-! ## Claim C6 -/

/-- C6 counterexample: for a requested scene count of 1, the compiler
happily returns a document whose single scene is numbered 7 (no validation
or rewriting of `scene_number` happens), and the downstream run registers
that scene's image under key 1 — its position — while key 7 stays empty. -/
theorem sceneNumber_not_validated_ce :
    ((generate_consistent_story (some c6resp)).map
      (fun sd => (sd.scenes.getD []).map Scene.scene_number)) = some [some 7] ∧
    ¬ ([some 7] = ([some 1] : List (Option Int))) ∧
    ((generate_storyboard "/w" c6env StoryboardFiles.init 1 "en-US-AriaNeural").2).images 1 =
      some "/w/scene_1.png" ∧
    ((generate_storyboard "/w" c6env StoryboardFiles.init 1 "en-US-AriaNeural").2).images 7 =
      none := by
  refine ⟨by decide, by decide, by decide, by decide⟩

/-- C6 amended: the enhancement pass preserves whatever `scene_number`
values the generation service returned (nothing validates contiguity), and
the downstream stages join by 1-based position: after a run the asset
registry holds image entries exactly at keys `1..len(scenes)` regardless of
the `scene_number` fields. -/
theorem sceneNumber_amended :
    (∀ sd : StoryData, (enhance_visual_prompts sd).scenes.map (List.map Scene.scene_number) =
      sd.scenes.map (List.map Scene.scene_number)) ∧
    (∀ (cwd : String) (env : OrchEnv) (reg0 : StoryboardFiles) (N : Nat) (voice : String)
      (sd : StoryData), generate_consistent_story env.compile = some sd →
      ∀ m : Nat, ((generate_storyboard cwd env reg0 N voice).2).images m =
        if 0 < m ∧ m ≤ (sd.scenes.getD []).length then
          some (abspath cwd ("scene_" ++ toString m ++ ".png"))
        else none) := by
  constructor
  · intro sd
    cases hsc : sd.scenes with
    | none => simp [enhance_visual_prompts, hsc]
    | some l =>
      simp only [enhance_visual_prompts, hsc, Option.map_some', List.map_map]
      congr 1
  · intro cwd env reg0 N voice sd hsd m
    cases hc : env.compile with
    | none => rw [hc] at hsd; simp [generate_consistent_story] at hsd
    | some d =>
      rw [hc] at hsd
      simp only [generate_consistent_story, Option.some.injEq] at hsd
      subst hsd
      by_cases ht : (enhance_visual_prompts d).truthy = false
      · cases hs : (enhance_visual_prompts d).scenes with
        | some l => simp [StoryData.truthy, hs] at ht
        | none =>
          simp only [generate_storyboard, generate_consistent_story, hc]
          rw [if_pos ht,
            if_neg (by simp only [Option.getD_none, List.length_nil]; omega)]
          rfl
      · simp only [generate_storyboard, generate_consistent_story, hc]
        rw [if_neg ht, audioLoop_images, imageLoop_images]
        simp only [StoryboardFiles.reset, Nat.zero_add]

/-- Witness for the amended C6 statement at a concrete run. -/
theorem sceneNumber_amended_witness :
    ((generate_storyboard "/w" c6env StoryboardFiles.init 5 "en-US-AriaNeural").2).images 1 =
      some "/w/scene_1.png" := by
  have h := sceneNumber_amended.2 "/w" c6env StoryboardFiles.init 5 "en-US-AriaNeural"
    (enhance_visual_prompts c6resp) (by decide) 1
  exact h.trans (by decide)
